import Mathlib

/-!
Verification of the agent-orchestration layer of the Professor Profiler
repository: a shallow embedding of `google/adk/agents/agent.py`,
`google/adk/runners/runner.py` and `profiler_agent/tools.py`, with theorems
settling the specification claims about prompt assembly, tool dispatch,
sub-agent delegation, error envelopes, the runner, and the statistics tool.
-/

set_option autoImplicit false

namespace Profiler

/-- Python values as they appear in execution contexts and tool results:
JSON-serializable scalars and containers, plus `nonSer` standing for an
object (such as a `set`) that `json.dumps` rejects with a `TypeError`;
`nonSer` carries the Python type name (used in the `TypeError` message)
and the `str()` rendering of the object. -/
inductive Value where
  | str (s : String)
  | int (n : Int)
  | bool (b : Bool)
  | list (vs : List Value)
  | dict (kvs : List (String × Value))
  | nonSer (typeName : String) (rep : String)

/-- Escape of one character inside a JSON string literal, as `json.dumps`
performs it for the characters exercised here. -/
def jsonEscapeChar (c : Char) : String :=
  if c = '\\' then "\\\\"
  else if c = '"' then "\\\""
  else if c = '\n' then "\\n"
  else if c = '\t' then "\\t"
  else if c = '\r' then "\\r"
  else String.singleton c

/-- Escape of a whole string for inclusion in JSON output. -/
def jsonEscape (s : String) : String :=
  String.join (s.toList.map jsonEscapeChar)

/-- Rendering of a JSON scalar literal (string, integer or boolean);
`none` for the container cases, which the callers lay out themselves. -/
def jsonScalar : Value → Option String
  | .str s => some ("\"" ++ jsonEscape s ++ "\"")
  | .int n => some (toString n)
  | .bool b => some (if b then "true" else "false")
  | _ => none

mutual

/-- Embedding of `json.dumps(value)` with Python's default separators
(`", "` between items, `": "` after keys): returns the serialized text, or
fails with the `TypeError` message when the value is not serializable. -/
def jsonDumps : Value → Except String String
  | .str s => .ok ("\"" ++ jsonEscape s ++ "\"")
  | .int n => .ok (toString n)
  | .bool b => .ok (if b then "true" else "false")
  | .list vs => do
      let parts ← jsonDumpsElems vs
      .ok ("[" ++ String.intercalate ", " parts ++ "]")
  | .dict kvs => do
      let parts ← jsonDumpsEntries kvs
      .ok ("\x7b" ++ String.intercalate ", " parts ++ "\x7d")
  | .nonSer typeName _ =>
      .error ("Object of type " ++ typeName ++ " is not JSON serializable")

/-- Serialization of the elements of a JSON array, in order, failing on
the first unserializable element as `json.dumps` does. -/
def jsonDumpsElems : List Value → Except String (List String)
  | [] => .ok []
  | v :: rest => do
      let s ← jsonDumps v
      let ss ← jsonDumpsElems rest
      .ok (s :: ss)

/-- Serialization of the `"key": value` entries of a JSON object, in
order, failing on the first unserializable value. -/
def jsonDumpsEntries : List (String × Value) → Except String (List String)
  | [] => .ok []
  | (k, v) :: rest => do
      let s ← jsonDumps v
      let ss ← jsonDumpsEntries rest
      .ok (("\"" ++ jsonEscape k ++ "\": " ++ s) :: ss)

end

/-- Indentation prefix used by `json.dumps(value, indent=2)` at nesting
depth `d`. -/
def jsonIndent (d : Nat) : String :=
  String.join (List.replicate (2 * d) " ")

mutual

/-- Embedding of `json.dumps(value, indent=2)` at nesting depth `d`: each
container element sits on its own line indented two spaces per level, the
closing bracket on a line of its own at the parent level; empty containers
render compactly. -/
def jsonDumpsIndentAt : Nat → Value → Except String String
  | _, .str s => .ok ("\"" ++ jsonEscape s ++ "\"")
  | _, .int n => .ok (toString n)
  | _, .bool b => .ok (if b then "true" else "false")
  | _, .list [] => .ok "[]"
  | d, .list vs => do
      let parts ← jsonDumpsIndentElems (d + 1) vs
      .ok ("[\n" ++
        String.intercalate ",\n" (parts.map (fun p => jsonIndent (d + 1) ++ p)) ++
        "\n" ++ jsonIndent d ++ "]")
  | _, .dict [] => .ok "\x7b\x7d"
  | d, .dict kvs => do
      let parts ← jsonDumpsIndentEntries (d + 1) kvs
      .ok ("\x7b\n" ++
        String.intercalate ",\n" (parts.map (fun p => jsonIndent (d + 1) ++ p)) ++
        "\n" ++ jsonIndent d ++ "\x7d")
  | _, .nonSer typeName _ =>
      .error ("Object of type " ++ typeName ++ " is not JSON serializable")

/-- Indented serialization of the elements of a JSON array at depth `d`. -/
def jsonDumpsIndentElems : Nat → List Value → Except String (List String)
  | _, [] => .ok []
  | d, v :: rest => do
      let s ← jsonDumpsIndentAt d v
      let ss ← jsonDumpsIndentElems d rest
      .ok (s :: ss)

/-- Indented serialization of the `"key": value` entries of a JSON object
at depth `d`. -/
def jsonDumpsIndentEntries : Nat → List (String × Value) →
    Except String (List String)
  | _, [] => .ok []
  | d, (k, v) :: rest => do
      let s ← jsonDumpsIndentAt d v
      let ss ← jsonDumpsIndentEntries d rest
      .ok (("\"" ++ jsonEscape k ++ "\": " ++ s) :: ss)

end

/-- Embedding of `json.dumps(value, indent=2)` as called from
`Agent._build_full_prompt` (top level, depth 0). -/
def jsonDumps2 (v : Value) : Except String String :=
  jsonDumpsIndentAt 0 v

/-- Embedding of Python `str()` on the values the `else` branch of
`_build_full_prompt` can receive (non-dict, non-list); the container
branches are unreachable there because of the `isinstance` guard and are
given the empty rendering. -/
def pyStr : Value → String
  | .str s => s
  | .int n => toString n
  | .bool b => if b then "True" else "False"
  | .nonSer _ rep => rep
  | .list _ => ""
  | .dict _ => ""

/-- Test of `isinstance(value, (dict, list))` from `_build_full_prompt`. -/
def Value.isDictOrList : Value → Bool
  | .dict _ => true
  | .list _ => true
  | _ => false

/-- Execution context of one top-level invocation: a mapping from string
keys to values; iteration order of a Python dict is its insertion order,
here the list order. -/
abbrev Context := List (String × Value)

/-- Registered tool, as `Agent._prepare_tool_config` and
`Agent._execute_tool_call` see it: a `name`, the `to_gemini_declaration()`
result when the tool exposes one, and the `execute`/`func` callable when
the tool has one; the callable takes the call's arguments as keyword
arguments and returns a value, or raises (the `Except.error` case). -/
structure Tool where
  name : String
  decl : Option String
  exec : Option (List (String × Value) → Except String Value)

/-- Tool configuration sent to the backend: the `function_declarations`
list assembled by `Agent._prepare_tool_config`. -/
abbrev ToolConfig := List String

/-- Outcome of one Gemini `generate_content` call, after
`Agent._execute_llm` has inspected the candidates: plain text, a
function/tool-call request (name and argument mapping), or a raised
exception carrying its message. -/
inductive LLMResult where
  | text (s : String)
  | toolCall (name : String) (args : List (String × Value))
  | raise (msg : String)

/-- Backend client attached by `initialize`: an opaque function of the
full prompt, the system instruction, and the optional tool configuration
of the request. -/
abbrev Backend := String → String → Option ToolConfig → LLMResult

/-- Response envelope returned by `Agent.run`: the Python dict
`{agent, response, output_key}` on success or `{agent, error, output_key}`
on a caught failure, with `Option` marking which of the two payload keys
is present. -/
structure Envelope where
  agent : String
  response : Option String
  error : Option String
  output_key : Option String
deriving DecidableEq

/-- Agent from `google/adk/agents/agent.py`: name, whether `initialize`
has attached a client, role description, behavioral instruction, tool
list, ordered sub-agent list, output key, and the optional
`after_agent_callback`. The callback is modelled from the spec where the
`CallbackContext` module is absent from the sources: it receives the
response and its return value replaces the response when truthy
(non-empty). Generation parameters and the model identifier do not affect
any claim and are folded into the opaque backend. -/
inductive Agent where
  | mk (name : String) (initialized : Bool) (description : String)
      (instruction : String) (tools : List Tool) (subAgents : List Agent)
      (output_key : Option String)
      (callback : Option (String → Except String String))

/-- Name of the agent. -/
def Agent.name : Agent → String
  | .mk n _ _ _ _ _ _ _ => n

/-- Whether `initialize` has run for this agent. -/
def Agent.initialized : Agent → Bool
  | .mk _ i _ _ _ _ _ _ => i

/-- Role description of the agent. -/
def Agent.description : Agent → String
  | .mk _ _ d _ _ _ _ _ => d

/-- Instruction text of the agent. -/
def Agent.instruction : Agent → String
  | .mk _ _ _ i _ _ _ _ => i

/-- Tool list of the agent. -/
def Agent.tools : Agent → List Tool
  | .mk _ _ _ _ t _ _ _ => t

/-- Ordered sub-agent list of the agent. -/
def Agent.subAgents : Agent → List Agent
  | .mk _ _ _ _ _ s _ _ => s

/-- Output key of the agent. -/
def Agent.output_key : Agent → Option String
  | .mk _ _ _ _ _ _ k _ => k

/-- Post-processing callback of the agent; `Except.error` models the
callback itself raising, which happens inside the `try` block. -/
def Agent.callback : Agent → Option (String → Except String String)
  | .mk _ _ _ _ _ _ _ c => c

/-- Embedding of `Agent._build_system_instruction`: concatenate, separated
by blank lines, the labeled role, instruction, tool-name and
sub-agent-name sections, each present only when its field is non-empty. -/
def build_system_instruction (description instruction : String)
    (tools : List Tool) (subAgents : List Agent) : String :=
  String.intercalate "\n\n"
    ((if description ≠ "" then ["Role: " ++ description] else []) ++
     (if instruction ≠ "" then ["Instructions: " ++ instruction] else []) ++
     (if tools.isEmpty = false then
        ["Available tools: " ++ String.intercalate ", " (tools.map Tool.name)]
      else []) ++
     (if subAgents.isEmpty = false then
        ["Sub-agents: " ++ String.intercalate ", " (subAgents.map Agent.name)]
      else []))

/-- Loop of `Agent._build_full_prompt`: starting from the accumulated
string so far, append one "- key: value" line per context entry in
iteration order, serializing dict-or-list values with
`json.dumps(-, indent=2)` and stringifying the rest; a `TypeError` from
`json.dumps` aborts the loop. -/
def context_lines_loop (acc : String) : Context → Except String String
  | [] => .ok acc
  | kv :: rest =>
      if kv.2.isDictOrList then do
        let j ← jsonDumps2 kv.2
        context_lines_loop (acc ++ "- " ++ kv.1 ++ ": " ++ j ++ "\n") rest
      else
        context_lines_loop (acc ++ "- " ++ kv.1 ++ ": " ++ pyStr kv.2 ++ "\n") rest

/-- Embedding of `Agent._build_full_prompt`: with an empty context the
prompt is returned unchanged; otherwise the "Context:" block is
accumulated line by line over the context entries and appended to the
prompt. A `TypeError` from `json.dumps` propagates. -/
def build_full_prompt (context : Context) (prompt : String) :
    Except String String :=
  if context.isEmpty then .ok prompt
  else do
    let ctxStr ← context_lines_loop "\n\nContext:\n" context
    .ok (prompt ++ ctxStr)

/-- Embedding of `Agent._prepare_tool_config`: `none` when no tools are
registered or none exposes a declaration, otherwise the list of
declarations. -/
def prepare_tool_config (tools : List Tool) : Option ToolConfig :=
  if tools.isEmpty then none
  else
    let decls := tools.filterMap Tool.decl
    if decls = [] then none else some decls

/-- Embedding of `Agent._execute_tool_call`: the first registered tool
whose name equals the requested name and which has an `execute`/`func`
callable is invoked and its result serialized with `json.dumps`; when no
such tool exists the serialized object `{"error": "Tool <name> not
found"}` is returned without raising. -/
def execute_tool_call (tools : List Tool) (fname : String)
    (args : List (String × Value)) : Except String String :=
  match tools.findSome? (fun t =>
      if t.name = fname then t.exec.map (fun f => f args) else none) with
  | some r => do
      let v ← r
      jsonDumps v
  | none => jsonDumps (.dict [("error", .str ("Tool " ++ fname ++ " not found"))])

/-- Embedding of `Agent._execute_llm`: issue the backend call with the
full prompt, system instruction and tool configuration; dispatch a
requested function call to `_execute_tool_call`, return text as is, and
re-raise a backend exception. -/
def execute_llm (backend : Backend) (tools : List Tool) (fullPrompt : String)
    (systemInstruction : String) (toolConfig : Option ToolConfig) :
    Except String String :=
  match backend fullPrompt systemInstruction toolConfig with
  | .text s => .ok s
  | .toolCall n args => execute_tool_call tools n args
  | .raise m => .error m

mutual

/-- Embedding of `Agent.run`. An uninitialized client raises before
anything else; the system instruction, full prompt and tool configuration
are built OUTSIDE the `try` block, so a failure of `_build_full_prompt`
propagates as an exception (`Except.error`); inside the `try` block the
LLM call runs, then sub-agent delegation when sub-agents are present, then
the callback, and any exception there is caught and turned into the error
envelope. -/
def Agent.run (backend : Backend) :
    Agent → String → Context → Except String Envelope
  | .mk name inited desc instr tools subs key cb, prompt, context =>
    if inited = false then
      .error ("Agent " ++ name ++ " not initialized with client")
    else do
      let systemInstruction := build_system_instruction desc instr tools subs
      let fullPrompt ← build_full_prompt context prompt
      let toolConfig := prepare_tool_config tools
      let tryResult : Except String String := do
        let response ← execute_llm backend tools fullPrompt systemInstruction toolConfig
        let response ←
          if subs.isEmpty = false then do
            let entries ← execute_sub_agents_entries backend context response subs
            pure (String.intercalate "\n"
              (("[" ++ name ++ " Initial Response]\n" ++ response) :: entries))
          else pure response
        let response ←
          match cb with
          | some f => do
              let callbackResult ← f response
              pure (if callbackResult ≠ "" then callbackResult else response)
          | none => pure response
        .ok response
      match tryResult with
      | .ok r => .ok ⟨name, some r, none, key⟩
      | .error e => .ok ⟨name, none, some e, key⟩

/-- Loop body of `Agent._execute_sub_agents`: run each sub-agent on the
parent's response and the shared context, and collect the labeled
transcript entries, each holding the sub-agent's `response` value or the
empty string when the envelope has none. -/
def execute_sub_agents_entries (backend : Backend) (context : Context)
    (parentResponse : String) : List Agent → Except String (List String)
  | [] => .ok []
  | s :: rest => do
      let env ← Agent.run backend s parentResponse context
      let entry := "\n[" ++ s.name ++ " Response]\n" ++ (env.response.getD "")
      let restEntries ← execute_sub_agents_entries backend context parentResponse rest
      .ok (entry :: restEntries)

end

/-- Text part of a user message, as in `google.genai` content parts. -/
structure Part where
  text : String
deriving DecidableEq

/-- User message passed to the runner as `new_message`: a list of parts. -/
structure Message where
  parts : List Part
deriving DecidableEq

/-- Event yielded by the runner (`Runner._Event`): it wraps the response
text (reachable in Python as `event.content.parts[0].text`). -/
structure Event where
  text : String
deriving DecidableEq

/-- Embedding of `Runner._Event.is_final_response`, which returns `True`
unconditionally. -/
def Event.is_final_response (_ : Event) : Bool :=
  true

namespace Runner

/-- Embedding of `Runner.run_async` from `google/adk/runners/runner.py`:
start from the default text "mock response", replace it with the text of
the first part of `new_message` when one is provided and has parts, and
yield a single event carrying that text. No agent is consulted. -/
def run_async (new_message : Option Message) : List Event :=
  let text :=
    match new_message with
    | some m =>
        match m.parts with
        | p :: _ => p.text
        | [] => "mock response"
    | none => "mock response"
  [⟨text⟩]

end Runner

/-- Update step of `collections.Counter` consumption: bump the count of a
key present in the table, or append it with count one, preserving first-
occurrence order as Python dicts do. -/
def counterUpdate (acc : List (String × Nat)) (x : String) :
    List (String × Nat) :=
  if acc.any (fun p => p.1 = x) then
    acc.map (fun p => if p.1 = x then (p.1, p.2 + 1) else p)
  else acc ++ [(x, 1)]

/-- Embedding of `collections.Counter(xs)` read off as a dict in first-
occurrence order. -/
def counter (xs : List String) : List (String × Nat) :=
  xs.foldl counterUpdate []

/-- Insertion of an entry into a count-descending list, placed after the
entries already present with the same count. -/
def insertByCountDesc (x : String × Nat) :
    List (String × Nat) → List (String × Nat)
  | [] => [x]
  | y :: rest =>
      if y.2 < x.2 then x :: y :: rest else y :: insertByCountDesc x rest

/-- Stable sort by decreasing count: entries are inserted left to right,
each after the earlier entries of equal count, matching the order
`Counter.most_common` produces. -/
def sortByCountDesc (l : List (String × Nat)) : List (String × Nat) :=
  l.foldl (fun acc x => insertByCountDesc x acc) []

/-- Embedding of `Counter.most_common(n)`: entries in decreasing count
order (stably, so ties keep first-occurrence order), truncated to `n`. -/
def most_common (freq : List (String × Nat)) (n : Nat) :
    List (String × Nat) :=
  (sortByCountDesc freq).take n

/-- Embedding of Python `str.lower()` for the ASCII Bloom-level names the
statistics tool compares. -/
def strLower (s : String) : String :=
  String.mk (s.toList.map Char.toLower)

/-- Bloom levels counted as lower-order cognition by
`analyze_statistics`. -/
def lowerOrderLevels : List String :=
  ["remember", "understand"]

/-- Bloom levels counted as higher-order cognition by
`analyze_statistics`. -/
def higherOrderLevels : List String :=
  ["apply", "analyze", "evaluate", "create"]

/-- Sum of the counts of the frequency-table entries whose level,
lowercased, lies in `levels` — the generator expressions inside
`analyze_statistics`. -/
def sumMatchingLevels (levels : List String) (freq : List (String × Nat)) :
    Nat :=
  ((freq.filter (fun p => strLower p.1 ∈ levels)).map Prod.snd).sum

/-- Extraction of one tagged question's topic and bloom level with the
code's `q.get("topic", "Unknown")` / `q.get("bloom_level", "Unknown")`
defaults; non-dict entries are skipped by the loop. The claims only
exercise string-valued tags, so a non-string tag value is not modelled
beyond falling back to its slot. -/
def questionTags : Value → Option (String × String)
  | .dict kvs =>
      some
        (match kvs.lookup "topic" with
          | some (.str s) => s
          | _ => "Unknown",
         match kvs.lookup "bloom_level" with
          | some (.str s) => s
          | _ => "Unknown")
  | _ => none

/-- Core of `analyze_statistics` from `profiler_agent/tools.py`, applied
to already-parsed data (the claims apply it to a list; the `json.loads`
path for string input deserializes to the same `Value`). A dict input
reads its "questions" key (default empty list), a list input is the
question list itself, anything else yields `{"error": "Invalid input
format"}`; then topic and bloom frequencies, top-5 topics, and the
lower/higher-order split are assembled. -/
def analyze_statistics (data : Value) : Value :=
  let compute : List Value → Value := fun questions =>
    let tags := questions.filterMap questionTags
    let topic_freq := counter (tags.map Prod.fst)
    let bloom_freq := counter (tags.map Prod.snd)
    .dict
      [("total_questions", .int questions.length),
       ("topic_distribution", .dict (topic_freq.map (fun p => (p.1, .int p.2)))),
       ("bloom_distribution", .dict (bloom_freq.map (fun p => (p.1, .int p.2)))),
       ("top_topics",
        .list ((most_common topic_freq 5).map
          (fun p => .list [.str p.1, .int p.2]))),
       ("cognitive_complexity",
        .dict
          [("lower_order", .int (sumMatchingLevels lowerOrderLevels bloom_freq)),
           ("higher_order", .int (sumMatchingLevels higherOrderLevels bloom_freq))])]
  match data with
  | .dict kvs =>
      match kvs.lookup "questions" with
      | some (.list qs) => compute qs
      | none => compute []
      | some _ =>
          -- a non-sequence "questions" value makes the Python code raise a
          -- TypeError at len(), caught into the generic failure envelope
          .dict [("error", .str "Failed to analyze statistics")]
  | .list qs => compute qs
  | _ => .dict [("error", .str "Invalid input format")]

/-- Delegation as the specification words it, for comparison with the
code: each sub-agent is fed the immediately preceding response — the
parent's for the first sub-agent, thereafter the previous sub-agent's
output — together with the shared context, and the labeled entries are
collected. This definition follows the spec sentence, not the source. -/
def chained_sub_agents_entries (backend : Backend) (context : Context) :
    String → List Agent → Except String (List String)
  | _, [] => .ok []
  | current, s :: rest => do
      let env ← Agent.run backend s current context
      let text := env.response.getD ""
      let entry := "\n[" ++ s.name ++ " Response]\n" ++ text
      let restEntries ← chained_sub_agents_entries backend context text rest
      .ok (entry :: restEntries)

/-- Transcript the specification's chained-delegation reading would
produce for a parent response and its sub-agents; compared against the
transcript `Agent.run` actually builds. -/
def chained_transcript (backend : Backend) (context : Context)
    (parentName parentResponse : String) (subs : List Agent) :
    Except String String := do
  let entries ← chained_sub_agents_entries backend context parentResponse subs
  .ok (String.intercalate "\n"
    (("[" ++ parentName ++ " Initial Response]\n" ++ parentResponse) :: entries))

/-- Runner behavior as the specification words it, for comparison with
the code: invoke the root agent's `run` with the message's first part as
prompt and an empty context, and yield one event wrapping the final
response text. This definition follows the spec sentence, not the
source. -/
def run_async_spec (backend : Backend) (root : Agent) (message : Message) :
    Except String (List Event) := do
  let prompt :=
    match message.parts with
    | p :: _ => p.text
    | [] => ""
  let env ← root.run backend prompt []
  .ok [⟨env.response.getD ""⟩]

/-- Backend used by the concrete delegation scenarios: it answers every
prompt `p` with the text `"f:" ++ p`, so the prompt an agent received can
be read off from its response. -/
def tracingBackend : Backend :=
  fun p _ _ => .text ("f:" ++ p)

/-- Leaf agent named "A" with no tools, sub-agents or callback. -/
def agentA : Agent :=
  .mk "A" true "" "" [] [] none none

/-- Leaf agent named "B" with no tools, sub-agents or callback. -/
def agentB : Agent :=
  .mk "B" true "" "" [] [] none none

/-- Parent agent named "P" whose sub-agents are `agentA` then `agentB`. -/
def agentP : Agent :=
  .mk "P" true "" "" [] [agentA, agentB] none none

/-- Backend that raises for the agent whose role description is "failing"
(its system instruction is then "Role: failing") and otherwise answers
with `"ok:" ++ prompt`; it distinguishes agents by system instruction the
way the live backend distinguishes them by their configured role. -/
def failSelectiveBackend : Backend :=
  fun p si _ =>
    if si = "Role: failing" then .raise "backend down"
    else .text ("ok:" ++ p)

/-- Sub-agent whose backend call raises under `failSelectiveBackend`. -/
def agentFail : Agent :=
  .mk "F" true "failing" "" [] [] none none

/-- Sub-agent that succeeds under `failSelectiveBackend`. -/
def agentAfter : Agent :=
  .mk "G" true "" "" [] [] none none

/-- Parent whose first sub-agent fails and whose second one succeeds
under `failSelectiveBackend`. -/
def agentParentFail : Agent :=
  .mk "PF" true "" "" [] [agentFail, agentAfter] none none

/-- Execution context holding a Python `set` nested in a list, which
`json.dumps` cannot serialize. -/
def unserializableContext : Context :=
  [("data", .list [.nonSer "set" "\x7b1, 2\x7d"])]

/-- Plain initialized agent with no tools, sub-agents or callback, used
with `unserializableContext`. -/
def agentPlain : Agent :=
  .mk "plain" true "" "" [] [] none none

/-- Message whose single part says "hello". -/
def helloMessage : Message :=
  ⟨[⟨"hello"⟩]⟩

/-- Backend answering every request with the fixed text "LLM says hi". -/
def constBackend : Backend :=
  fun _ _ _ => .text "LLM says hi"

/-- Input of the statistics claim: two Physics questions tagged Remember
and Apply. -/
def statsInput : Value :=
  .list
    [.dict [("topic", .str "Physics"), ("bloom_level", .str "Remember")],
     .dict [("topic", .str "Physics"), ("bloom_level", .str "Apply")]]

/-- Backend that raises on every call. -/
def raisingBackend : Backend :=
  fun _ _ _ => .raise "boom"

/-- Backend that requests the unregistered tool "foo" on every call. -/
def fooToolBackend : Backend :=
  fun _ _ _ => .toolCall "foo" []

/-- Context of the prompt-building example: a scalar under "a" and a list
under "b". -/
def exampleContext : Context :=
  [("a", .int 1), ("b", .list [.int 1, .int 2])]

/-- Unfolding of `Agent.run` for an initialized agent on the success path
of the `try` block, with sub-agents present and no callback: the envelope
wraps the labeled transcript. -/
lemma run_try_ok (backend : Backend) (name desc instr : String)
    (tools : List Tool) (subs : List Agent) (key : Option String)
    (prompt : String) (ctx : Context) (fp pResp : String)
    (entries : List String)
    (hfp : build_full_prompt ctx prompt = .ok fp)
    (hllm : execute_llm backend tools fp
      (build_system_instruction desc instr tools subs)
      (prepare_tool_config tools) = .ok pResp)
    (hsubs : subs.isEmpty = false)
    (hentries : execute_sub_agents_entries backend ctx pResp subs = .ok entries) :
    Agent.run backend (.mk name true desc instr tools subs key none) prompt ctx =
      .ok ⟨name, some (String.intercalate "\n"
        (("[" ++ name ++ " Initial Response]\n" ++ pResp) :: entries)), none, key⟩ := by
  rw [Agent.run]
  simp [bind, Except.bind, hfp, hllm, hsubs, hentries, pure, Except.pure]

/-- Unfolding of `Agent.run` for an initialized agent whose `try` block
fails: the exception is converted into the error envelope, regardless of
sub-agents and callback. -/
lemma run_try_error (backend : Backend) (name desc instr : String)
    (tools : List Tool) (subs : List Agent) (key : Option String)
    (cb : Option (String → Except String String))
    (prompt : String) (ctx : Context) (fp msg : String)
    (hfp : build_full_prompt ctx prompt = .ok fp)
    (hllm : execute_llm backend tools fp
      (build_system_instruction desc instr tools subs)
      (prepare_tool_config tools) = .error msg) :
    Agent.run backend (.mk name true desc instr tools subs key cb) prompt ctx =
      .ok ⟨name, none, some msg, key⟩ := by
  rw [Agent.run]
  simp [bind, Except.bind, hfp, hllm]

/-- Unfolding of `Agent.run` for an initialized agent with no sub-agents
and no callback on the success path: the envelope wraps the LLM result. -/
lemma run_try_ok_nosubs (backend : Backend) (name desc instr : String)
    (tools : List Tool) (key : Option String)
    (prompt : String) (ctx : Context) (fp resp : String)
    (hfp : build_full_prompt ctx prompt = .ok fp)
    (hllm : execute_llm backend tools fp
      (build_system_instruction desc instr tools [])
      (prepare_tool_config tools) = .ok resp) :
    Agent.run backend (.mk name true desc instr tools [] key none) prompt ctx =
      .ok ⟨name, some resp, none, key⟩ := by
  rw [Agent.run]
  simp [bind, Except.bind, hfp, hllm, pure, Except.pure]

/-- Characterization of the sub-agent loop: the collected entries are the
monadic map, over the sub-agents in registration order, of running each
one on the SAME parent response and shared context and labeling the
result. -/
lemma entries_eq_mapM (backend : Backend) (ctx : Context) (pResp : String)
    (subs : List Agent) :
    execute_sub_agents_entries backend ctx pResp subs =
      subs.mapM (fun s => (Agent.run backend s pResp ctx).map
        (fun env => "\n[" ++ s.name ++ " Response]\n" ++ env.response.getD "")) := by
  induction subs with
  | nil => rfl
  | cons s rest ih =>
      rw [execute_sub_agents_entries, List.mapM_cons, ih]
      cases Agent.run backend s pResp ctx with
      | error e => rfl
      | ok env =>
          cases hrest : rest.mapM (fun s => (Agent.run backend s pResp ctx).map
            (fun env => "\n[" ++ s.name ++ " Response]\n" ++ env.response.getD "")) with
          | error e => rfl
          | ok es => rfl

/-- Splitting of the sub-agent loop over a list split: the entries of the
concatenation are the concatenated entries. -/
lemma entries_append (backend : Backend) (ctx : Context) (pResp : String)
    (l1 l2 : List Agent) (es1 es2 : List String)
    (h1 : execute_sub_agents_entries backend ctx pResp l1 = .ok es1)
    (h2 : execute_sub_agents_entries backend ctx pResp l2 = .ok es2) :
    execute_sub_agents_entries backend ctx pResp (l1 ++ l2) = .ok (es1 ++ es2) := by
  induction l1 generalizing es1 with
  | nil =>
      have h1e : (Except.ok [] : Except String (List String)) = .ok es1 := h1
      cases h1e
      simpa using h2
  | cons s rest ih =>
      rw [List.cons_append]
      rw [execute_sub_agents_entries] at h1 ⊢
      cases hs : Agent.run backend s pResp ctx with
      | error e => rw [hs] at h1; cases h1
      | ok env =>
          rw [hs] at h1
          simp only [bind, Except.bind] at h1 ⊢
          cases hrest : execute_sub_agents_entries backend ctx pResp rest with
          | error e => rw [hrest] at h1; cases h1
          | ok es =>
              rw [hrest] at h1
              cases h1
              rw [ih es hrest]
              rfl

/-- Flattening of the three-entry transcript produced for a parent and
two sub-agents into one explicit concatenation. -/
lemma transcript_two (name pResp n1 r1 n2 r2 : String) :
    String.intercalate "\n" ["[" ++ name ++ " Initial Response]\n" ++ pResp,
      "\n[" ++ n1 ++ " Response]\n" ++ r1, "\n[" ++ n2 ++ " Response]\n" ++ r2] =
    "[" ++ name ++ " Initial Response]\n" ++ pResp ++ "\n\n[" ++ n1 ++
      " Response]\n" ++ r1 ++ "\n\n[" ++ n2 ++ " Response]\n" ++ r2 := by
  apply String.ext
  simp [String.intercalate, String.intercalate.go]

/-- C9: every envelope returned by `Agent.run` carries the agent's name
and the descriptor's output key, and exactly one of a response payload or
an error string, never both. -/
theorem envelope_invariant (backend : Backend) (a : Agent) (prompt : String)
    (ctx : Context) (env : Envelope)
    (h : Agent.run backend a prompt ctx = .ok env) :
    env.agent = a.name ∧ env.output_key = a.output_key ∧
      ((env.response.isSome ∧ env.error = none) ∨
       (env.response = none ∧ env.error.isSome)) := by
  obtain ⟨name, inited, desc, instr, tools, subs, key, cb⟩ := a
  rw [Agent.run] at h
  by_cases hi : inited = false
  · simp [hi] at h
  · rw [if_neg hi] at h
    cases hfp : build_full_prompt ctx prompt with
    | error e => rw [hfp] at h; simp [bind, Except.bind] at h
    | ok fp =>
        rw [hfp] at h
        simp only [bind, Except.bind] at h
        repeat split at h
        all_goals (cases h; simp [Agent.name, Agent.output_key])

/-- Witness for C9 at a concrete run of `agentA` under the tracing
backend. -/
theorem envelope_invariant_witness :
    (⟨"A", some "f:q", none, none⟩ : Envelope).agent = agentA.name ∧
      (⟨"A", some "f:q", none, none⟩ : Envelope).output_key = agentA.output_key ∧
      (((⟨"A", some "f:q", none, none⟩ : Envelope).response.isSome ∧
          (⟨"A", some "f:q", none, none⟩ : Envelope).error = none) ∨
       ((⟨"A", some "f:q", none, none⟩ : Envelope).response = none ∧
          (⟨"A", some "f:q", none, none⟩ : Envelope).error.isSome)) :=
  envelope_invariant tracingBackend agentA "q" [] ⟨"A", some "f:q", none, none⟩ rfl

/-- C2 counterexample: a context holding a Python set nested in a list
makes `_build_full_prompt` raise, and because prompt construction happens
before the `try` block, `Agent.run` propagates the exception instead of
returning an error envelope. -/
theorem run_raises_on_unserializable_context :
    Agent.run tracingBackend agentPlain "p" unserializableContext =
      .error "Object of type set is not JSON serializable" := rfl

/-- C2 as amended: once the full prompt has been built successfully, an
initialized agent's `run` always returns an envelope — failures of the
backend call, tool execution, sub-agent delegation and the callback are
caught inside the `try` block. -/
theorem run_no_raise_after_prompt_build (backend : Backend)
    (name desc instr : String) (tools : List Tool) (subs : List Agent)
    (key : Option String) (cb : Option (String → Except String String))
    (prompt : String) (ctx : Context) (fp : String)
    (hfp : build_full_prompt ctx prompt = .ok fp) :
    ∃ env, Agent.run backend (.mk name true desc instr tools subs key cb)
      prompt ctx = .ok env := by
  rw [Agent.run]
  simp only [bind, Except.bind, hfp, Bool.true_eq_false, if_false]
  split
  · exact ⟨_, rfl⟩
  · exact ⟨_, rfl⟩

/-- Witness for C2 at the plain agent under the raising backend: even a
backend exception yields an `ok` envelope. -/
theorem run_no_raise_after_prompt_build_witness :
    ∃ env, Agent.run raisingBackend (.mk "plain" true "" "" [] [] none none)
      "p" [] = .ok env :=
  run_no_raise_after_prompt_build raisingBackend "plain" "" "" [] [] none none
    "p" [] "p" rfl

/-- C4 counterexample: the first sub-agent's backend call raises and its
run returns an error envelope, yet the second sub-agent still runs — its
output "ok:ok:q" appears in the parent transcript — so delegation does
proceed past a failed agent. -/
theorem delegation_past_failed_sub_agent :
    Agent.run failSelectiveBackend agentFail "ok:q" [] =
      .ok ⟨"F", none, some "backend down", none⟩ ∧
    Agent.run failSelectiveBackend agentParentFail "q" [] =
      .ok ⟨"PF", some "[PF Initial Response]\nok:q\n\n[F Response]\n\n\n[G Response]\nok:ok:q",
        none, none⟩ :=
  ⟨rfl, rfl⟩

/-- C4 as amended: when the agent's own backend call raises, `run`
returns the error envelope `{agent, error, output_key}` without raising,
and no sub-agent contributes — the result is the same for every sub-agent
list. -/
theorem backend_raise_no_sub_agents (backend : Backend)
    (name desc instr : String) (tools : List Tool) (subs : List Agent)
    (key : Option String) (cb : Option (String → Except String String))
    (prompt : String) (ctx : Context) (fp msg : String)
    (hfp : build_full_prompt ctx prompt = .ok fp)
    (hraise : backend fp (build_system_instruction desc instr tools subs)
      (prepare_tool_config tools) = .raise msg) :
    Agent.run backend (.mk name true desc instr tools subs key cb) prompt ctx =
      .ok ⟨name, none, some msg, key⟩ :=
  run_try_error backend name desc instr tools subs key cb prompt ctx fp msg hfp
    (by simp [execute_llm, hraise])

/-- Witness for C4: a root agent with one sub-agent under the raising
backend returns the error envelope. -/
theorem backend_raise_no_sub_agents_witness :
    Agent.run raisingBackend (.mk "P" true "" "" [] [agentA] none none)
      "q" [] = .ok ⟨"P", none, some "boom", none⟩ :=
  backend_raise_no_sub_agents raisingBackend "P" "" "" [] [agentA] none none
    "q" [] "q" "boom" rfl rfl

/-- C1 counterexample: under the tracing backend the parent's response to
"q" is "f:q"; both sub-agents answer "f:f:q", showing each received the
parent's response "f:q" as its prompt, while the chained reading of the
spec would have B receive A's output "f:f:q" and answer "f:f:f:q". The
two transcripts differ. -/
theorem sub_agents_chaining_counterexample :
    Agent.run tracingBackend agentP "q" [] =
      .ok ⟨"P", some "[P Initial Response]\nf:q\n\n[A Response]\nf:f:q\n\n[B Response]\nf:f:q",
        none, none⟩ ∧
    chained_transcript tracingBackend [] "P" "f:q" [agentA, agentB] =
      .ok "[P Initial Response]\nf:q\n\n[A Response]\nf:f:q\n\n[B Response]\nf:f:f:q" ∧
    ("[P Initial Response]\nf:q\n\n[A Response]\nf:f:q\n\n[B Response]\nf:f:q" : String) ≠
      "[P Initial Response]\nf:q\n\n[A Response]\nf:f:q\n\n[B Response]\nf:f:f:q" :=
  ⟨rfl, rfl, by decide⟩

/-- C1 as amended: the sub-agents run sequentially in registration order,
but every one of them receives the PARENT's initial response as its
prompt, together with the same shared context; the transcript collects
their labeled responses in that order. -/
theorem sub_agents_receive_parent_response (backend : Backend)
    (name desc instr : String) (tools : List Tool) (subs : List Agent)
    (key : Option String) (prompt : String) (ctx : Context)
    (fp pResp : String) (entries : List String)
    (hfp : build_full_prompt ctx prompt = .ok fp)
    (hsubs : subs ≠ [])
    (htext : backend fp (build_system_instruction desc instr tools subs)
      (prepare_tool_config tools) = .text pResp)
    (hentries : subs.mapM (fun s => (Agent.run backend s pResp ctx).map
      (fun env => "\n[" ++ s.name ++ " Response]\n" ++ env.response.getD "")) =
        .ok entries) :
    Agent.run backend (.mk name true desc instr tools subs key none) prompt ctx =
      .ok ⟨name, some (String.intercalate "\n"
        (("[" ++ name ++ " Initial Response]\n" ++ pResp) :: entries)), none, key⟩ := by
  have hie : subs.isEmpty = false := by
    cases subs with
    | nil => exact absurd rfl hsubs
    | cons s rest => rfl
  exact run_try_ok backend name desc instr tools subs key prompt ctx fp pResp
    entries hfp (by simp [execute_llm, htext]) hie
    ((entries_eq_mapM backend ctx pResp subs).trans hentries)

/-- Witness for C1 at the tracing scenario: both sub-agents of `agentP`
were fed the parent response "f:q". -/
theorem sub_agents_receive_parent_response_witness :
    Agent.run tracingBackend (.mk "P" true "" "" [] [agentA, agentB] none none)
      "q" [] =
      .ok ⟨"P", some (String.intercalate "\n"
        ["[P Initial Response]\nf:q", "\n[A Response]\nf:f:q", "\n[B Response]\nf:f:q"]),
        none, none⟩ :=
  sub_agents_receive_parent_response tracingBackend "P" "" "" [] [agentA, agentB]
    none "q" [] "q" "f:q" ["\n[A Response]\nf:f:q", "\n[B Response]\nf:f:q"]
    rfl (List.cons_ne_nil _ _) rfl rfl

/-- C3 counterexample: `run_async` yields the event echoing the user
message "hello" unchanged, whereas invoking the root agent as the spec
describes would wrap the agent's final response "LLM says hi"; the root
agent is never consulted. -/
theorem run_async_ignores_root_agent :
    Runner.run_async (some helloMessage) = [⟨"hello"⟩] ∧
    run_async_spec constBackend agentPlain helloMessage = .ok [⟨"LLM says hi"⟩] ∧
    ([⟨"hello"⟩] : List Event) ≠ [⟨"LLM says hi"⟩] :=
  ⟨rfl, rfl, by decide⟩

/-- C3 as amended: for every message, `run_async` yields exactly one
event, that event is terminal, and it wraps the text of the message's
first part (or "mock response" when no message or no parts are given) —
no agent is invoked and no agent output appears. -/
theorem run_async_echoes_message (new_message : Option Message) :
    Runner.run_async new_message =
      [⟨match new_message with
        | some m =>
            match m.parts with
            | p :: _ => p.text
            | [] => "mock response"
        | none => "mock response"⟩] ∧
    ∀ e ∈ Runner.run_async new_message, e.is_final_response = true := by
  constructor
  · rfl
  · intro e _
    rfl

/-- C6: for a parent with exactly two sub-agents, the final response is
the parent's initial response and the two sub-agents' responses
concatenated in registration order under their labeled headers, and each
sub-agent receives the parent's response as its own prompt. -/
theorem two_sub_agent_transcript (backend : Backend)
    (name desc instr : String) (tools : List Tool) (s1 s2 : Agent)
    (key : Option String) (prompt : String) (ctx : Context)
    (fp pResp : String) (e1 e2 : Envelope)
    (hfp : build_full_prompt ctx prompt = .ok fp)
    (htext : backend fp (build_system_instruction desc instr tools [s1, s2])
      (prepare_tool_config tools) = .text pResp)
    (h1 : Agent.run backend s1 pResp ctx = .ok e1)
    (h2 : Agent.run backend s2 pResp ctx = .ok e2) :
    Agent.run backend (.mk name true desc instr tools [s1, s2] key none)
      prompt ctx =
      .ok ⟨name, some ("[" ++ name ++ " Initial Response]\n" ++ pResp ++
        "\n\n[" ++ s1.name ++ " Response]\n" ++ e1.response.getD "" ++
        "\n\n[" ++ s2.name ++ " Response]\n" ++ e2.response.getD ""), none, key⟩ := by
  have hrun := run_try_ok backend name desc instr tools [s1, s2] key prompt ctx
    fp pResp ["\n[" ++ s1.name ++ " Response]\n" ++ e1.response.getD "",
      "\n[" ++ s2.name ++ " Response]\n" ++ e2.response.getD ""]
    hfp (by simp [execute_llm, htext]) rfl
    (by rw [entries_eq_mapM]
        simp [List.mapM, List.mapM.loop, h1, h2, bind, Except.bind, Except.map,
          pure, Except.pure])
  rw [hrun, transcript_two]

/-- Witness for C6 at the tracing scenario with sub-agents A and B. -/
theorem two_sub_agent_transcript_witness :
    Agent.run tracingBackend (.mk "P" true "" "" [] [agentA, agentB] none none)
      "q" [] =
      .ok ⟨"P", some ("[" ++ "P" ++ " Initial Response]\n" ++ "f:q" ++
        "\n\n[" ++ agentA.name ++ " Response]\n" ++
          (Envelope.mk "A" (some "f:f:q") none none).response.getD "" ++
        "\n\n[" ++ agentB.name ++ " Response]\n" ++
          (Envelope.mk "B" (some "f:f:q") none none).response.getD ""), none, none⟩ :=
  two_sub_agent_transcript tracingBackend "P" "" "" [] agentA agentB none "q" []
    "q" "f:q" ⟨"A", some "f:f:q", none, none⟩ ⟨"B", some "f:f:q", none, none⟩
    rfl rfl rfl rfl

/-- C10: when a sub-agent's run returns an error envelope (no response
payload), the parent's transcript keeps that sub-agent's labeled header
followed by the empty string — the error message appears nowhere in the
parent's final response or envelope, whose value here does not depend on
the error string at all. -/
theorem failed_sub_agent_silently_dropped (backend : Backend)
    (name desc instr : String) (tools : List Tool) (l1 l2 : List Agent)
    (s : Agent) (key : Option String) (prompt : String) (ctx : Context)
    (fp pResp : String) (e : Envelope) (es1 es2 : List String)
    (hfp : build_full_prompt ctx prompt = .ok fp)
    (htext : backend fp
      (build_system_instruction desc instr tools (l1 ++ s :: l2))
      (prepare_tool_config tools) = .text pResp)
    (hs : Agent.run backend s pResp ctx = .ok e)
    (hresp : e.response = none) (herr : e.error.isSome)
    (h1 : execute_sub_agents_entries backend ctx pResp l1 = .ok es1)
    (h2 : execute_sub_agents_entries backend ctx pResp l2 = .ok es2) :
    Agent.run backend (.mk name true desc instr tools (l1 ++ s :: l2) key none)
      prompt ctx =
      .ok ⟨name, some (String.intercalate "\n"
        (("[" ++ name ++ " Initial Response]\n" ++ pResp) ::
          (es1 ++ ("\n[" ++ s.name ++ " Response]\n") :: es2))), none, key⟩ := by
  have hie : (l1 ++ s :: l2).isEmpty = false := by cases l1 <;> rfl
  have hmid : execute_sub_agents_entries backend ctx pResp (s :: l2) =
      .ok (("\n[" ++ s.name ++ " Response]\n") :: es2) := by
    rw [execute_sub_agents_entries, hs]
    simp only [bind, Except.bind]
    rw [h2]
    simp [hresp]
  exact run_try_ok backend name desc instr tools (l1 ++ s :: l2) key prompt ctx
    fp pResp (es1 ++ ("\n[" ++ s.name ++ " Response]\n") :: es2)
    hfp (by simp [execute_llm, htext]) hie
    (entries_append backend ctx pResp l1 (s :: l2) es1 _ h1 hmid)

/-- Witness for C10 at the failing scenario: sub-agent F's error "backend
down" is dropped; the transcript holds only its bare header. -/
theorem failed_sub_agent_silently_dropped_witness :
    Agent.run failSelectiveBackend
      (.mk "PF" true "" "" [] ([] ++ agentFail :: [agentAfter]) none none)
      "q" [] =
      .ok ⟨"PF", some (String.intercalate "\n"
        (("[" ++ "PF" ++ " Initial Response]\n" ++ "ok:q") ::
          ([] ++ ("\n[" ++ agentFail.name ++ " Response]\n") ::
            ["\n[G Response]\nok:ok:q"]))), none, none⟩ :=
  failed_sub_agent_silently_dropped failSelectiveBackend "PF" "" "" [] []
    [agentAfter] agentFail none "q" [] "q" "ok:q"
    ⟨"F", none, some "backend down", none⟩ [] ["\n[G Response]\nok:ok:q"]
    rfl rfl rfl rfl rfl rfl rfl

/-- C5: a backend tool-call request whose name matches no registered tool
does not raise; the agent's textual result is the `json.dumps` rendering
of the object with the single key "error" and the value "Tool <name> not
found", and it flows onward as the agent's response. -/
theorem unknown_tool_json_error (backend : Backend) (name desc instr : String)
    (tools : List Tool) (key : Option String) (prompt : String) (ctx : Context)
    (fp fname : String) (args : List (String × Value))
    (hfp : build_full_prompt ctx prompt = .ok fp)
    (hcall : backend fp (build_system_instruction desc instr tools [])
      (prepare_tool_config tools) = .toolCall fname args)
    (hname : ∀ t ∈ tools, t.name ≠ fname) :
    ∃ s, jsonDumps (.dict [("error", .str ("Tool " ++ fname ++ " not found"))]) =
        .ok s ∧
      Agent.run backend (.mk name true desc instr tools [] key none) prompt ctx =
        .ok ⟨name, some s, none, key⟩ := by
  have hfind : tools.findSome? (fun t =>
      if t.name = fname then t.exec.map (fun f => f args) else none) = none := by
    rw [List.findSome?_eq_none_iff]
    intro t ht
    simp [hname t ht]
  have hexec : execute_tool_call tools fname args =
      jsonDumps (.dict [("error", .str ("Tool " ++ fname ++ " not found"))]) := by
    rw [execute_tool_call, hfind]
  obtain ⟨s, hsj⟩ : ∃ s,
      jsonDumps (.dict [("error", .str ("Tool " ++ fname ++ " not found"))]) =
        .ok s := ⟨_, rfl⟩
  refine ⟨s, hsj, run_try_ok_nosubs backend name desc instr tools key prompt ctx
    fp s hfp ?_⟩
  simp only [execute_llm, hcall]
  rw [hexec]
  exact hsj

/-- Witness for C5: an agent with no tools whose backend requests the
tool "foo". -/
theorem unknown_tool_json_error_witness :
    ∃ s, jsonDumps (.dict [("error", .str ("Tool " ++ "foo" ++ " not found"))]) =
        .ok s ∧
      Agent.run fooToolBackend (.mk "T" true "" "" [] [] none none) "q" [] =
        .ok ⟨"T", some s, none, none⟩ :=
  unknown_tool_json_error fooToolBackend "T" "" "" [] none "q" [] "q" "foo" []
    rfl rfl (by simp)

/-- Cons unfolding of `String.join`. -/
lemma string_join_cons (x : String) (ls : List String) :
    String.join (x :: ls) = x ++ String.join ls := by
  apply String.ext
  simp [String.join_eq]

/-- Accumulator form of the "Context:" block construction: the loop of
`_build_full_prompt` over the context appends, to the running string, one
rendered line per context entry in iteration order. -/
lemma build_context_lines (ctx : Context) (acc : String) (lines : List String)
    (hlines : ctx.mapM (fun kv =>
      (if kv.2.isDictOrList then jsonDumps2 kv.2 else .ok (pyStr kv.2)).map
        (fun r => "- " ++ kv.1 ++ ": " ++ r ++ "\n")) = .ok lines) :
    context_lines_loop acc ctx = .ok (acc ++ String.join lines) := by
  induction ctx generalizing acc lines with
  | nil =>
      have hl : (Except.ok [] : Except String (List String)) = .ok lines := hlines
      cases hl
      simp [context_lines_loop, String.join]
  | cons kv rest ih =>
      rw [List.mapM_cons] at hlines
      rw [context_lines_loop]
      by_cases hk : kv.2.isDictOrList
      · cases hj : jsonDumps2 kv.2 with
        | error e =>
            rw [if_pos hk, hj] at hlines
            simp [bind, Except.bind, Except.map] at hlines
        | ok j =>
            have hfkv : Except.map (fun r => "- " ++ kv.1 ++ ": " ++ r ++ "\n")
                (if kv.2.isDictOrList = true then jsonDumps2 kv.2
                 else Except.ok (pyStr kv.2)) =
                .ok ("- " ++ kv.1 ++ ": " ++ j ++ "\n") := by
              rw [if_pos hk, hj]
              rfl
            rw [hfkv] at hlines
            simp only [bind, Except.bind] at hlines
            cases hrest : rest.mapM (fun kv =>
              (if kv.2.isDictOrList then jsonDumps2 kv.2 else .ok (pyStr kv.2)).map
                (fun r => "- " ++ kv.1 ++ ": " ++ r ++ "\n")) with
            | error e => rw [hrest] at hlines; cases hlines
            | ok restLines =>
                rw [hrest] at hlines
                cases hlines
                rw [if_pos hk]
                simp only [bind, Except.bind]
                rw [ih _ _ hrest, string_join_cons]
                simp [String.append_assoc]
      · have hfkv : Except.map (fun r => "- " ++ kv.1 ++ ": " ++ r ++ "\n")
            (if kv.2.isDictOrList = true then jsonDumps2 kv.2
             else Except.ok (pyStr kv.2)) =
            .ok ("- " ++ kv.1 ++ ": " ++ pyStr kv.2 ++ "\n") := by
          rw [if_neg hk]
          rfl
        rw [hfkv] at hlines
        simp only [bind, Except.bind] at hlines
        cases hrest : rest.mapM (fun kv =>
          (if kv.2.isDictOrList then jsonDumps2 kv.2 else .ok (pyStr kv.2)).map
            (fun r => "- " ++ kv.1 ++ ": " ++ r ++ "\n")) with
        | error e => rw [hrest] at hlines; cases hlines
        | ok restLines =>
            rw [hrest] at hlines
            cases hlines
            rw [if_neg hk]
            rw [ih _ _ hrest, string_join_cons]
            simp [String.append_assoc]

/-- C7: with an empty context the full prompt is the user prompt
unchanged; with a non-empty context it is the prompt followed by a
"Context:" block holding one line per key in iteration order, dict-or-list
values rendered as `json.dumps(-, indent=2)` and scalars stringified. -/
theorem full_prompt_context_block (ctx : Context) (prompt : String) :
    (ctx = [] → build_full_prompt ctx prompt = .ok prompt) ∧
    (∀ lines, ctx ≠ [] →
      ctx.mapM (fun kv =>
        (if kv.2.isDictOrList then jsonDumps2 kv.2 else .ok (pyStr kv.2)).map
          (fun r => "- " ++ kv.1 ++ ": " ++ r ++ "\n")) = .ok lines →
      build_full_prompt ctx prompt =
        .ok (prompt ++ "\n\nContext:\n" ++ String.join lines)) := by
  constructor
  · intro h
    subst h
    rfl
  · intro lines hne hlines
    have hie : ctx.isEmpty = false := by
      cases ctx with
      | nil => exact absurd rfl hne
      | cons kv rest => rfl
    rw [build_full_prompt, hie]
    simp only [bind, Except.bind, Bool.false_eq_true, if_false]
    rw [build_context_lines ctx "\n\nContext:\n" lines hlines]
    simp [String.append_assoc]

/-- Witness for C7 at the empty context and at the context
`{"a": 1, "b": [1, 2]}` from the specification's example. -/
theorem full_prompt_context_block_witness :
    build_full_prompt [] "q" = .ok "q" ∧
    build_full_prompt exampleContext "q" =
      .ok ("q" ++ "\n\nContext:\n" ++
        String.join ["- a: 1\n", "- b: [\n  1,\n  2\n]\n"]) :=
  ⟨(full_prompt_context_block [] "q").1 rfl,
   (full_prompt_context_block exampleContext "q").2
     ["- a: 1\n", "- b: [\n  1,\n  2\n]\n"]
     (List.cons_ne_nil _ _) rfl⟩


/-- Bumping the count of one key in a frequency table leaves the key
list unchanged. -/
lemma bump_keys (x : String) (acc : List (String × Nat)) :
    (acc.map (fun p => if p.1 = x then (p.1, p.2 + 1) else p)).map Prod.fst =
      acc.map Prod.fst := by
  induction acc with
  | nil => rfl
  | cons p rest ih => by_cases hp : p.1 = x <;> simp [hp, ih]

/-- Bumping a key that occurs nowhere in the table is the identity. -/
lemma bump_not_mem (x : String) (acc : List (String × Nat))
    (h : ∀ p ∈ acc, p.1 ≠ x) :
    acc.map (fun p => if p.1 = x then (p.1, p.2 + 1) else p) = acc := by
  induction acc with
  | nil => rfl
  | cons p rest ih =>
      simp only [List.map_cons]
      rw [if_neg (h p (List.mem_cons_self p rest))]
      rw [ih (fun q hq => h q (List.mem_cons_of_mem p hq))]

/-- Under distinct keys, bumping the present key `x` raises the filtered
count sum by one exactly when `x` satisfies the filter. -/
lemma filter_sum_bump (P : String → Bool) (x : String)
    (acc : List (String × Nat)) (hnd : (acc.map Prod.fst).Nodup)
    (hmem : acc.any (fun p => p.1 = x) = true) :
    (((acc.map (fun p => if p.1 = x then (p.1, p.2 + 1) else p)).filter
        (fun p => P p.1)).map Prod.snd).sum =
      ((acc.filter (fun p => P p.1)).map Prod.snd).sum +
        (if P x then 1 else 0) := by
  induction acc with
  | nil => simp at hmem
  | cons p rest ih =>
      simp only [List.map_cons, List.map_cons] at hnd ⊢
      rw [List.nodup_cons] at hnd
      by_cases hp : p.1 = x
      · rw [if_pos hp]
        have hxrest : ∀ q ∈ rest, q.1 ≠ x := by
          intro q hq hqx
          exact hnd.1 (by rw [hp, ← hqx] at *; exact List.mem_map_of_mem Prod.fst hq)
        rw [bump_not_mem x rest hxrest]
        by_cases hP : P x
        · simp [List.filter_cons, hp, hP]
          omega
        · simp [List.filter_cons, hp, hP]
      · rw [if_neg hp]
        have hmem' : rest.any (fun p => p.1 = x) = true := by
          simp only [List.any_cons] at hmem
          simpa [hp] using hmem
        have hstep := ih hnd.2 hmem'
        by_cases hP : P p.1
        · simp [List.filter_cons, hP, hstep]
          omega
        · simp [List.filter_cons, hP, hstep]


/-- One `Counter` update preserves distinctness of the keys. -/
lemma counterUpdate_nodup (acc : List (String × Nat)) (x : String)
    (hnd : (acc.map Prod.fst).Nodup) :
    ((counterUpdate acc x).map Prod.fst).Nodup := by
  rw [counterUpdate]
  by_cases hmem : acc.any (fun p => p.1 = x) = true
  · rw [if_pos hmem, bump_keys]
    exact hnd
  · rw [if_neg hmem]
    rw [List.map_append]
    simp only [List.map_cons, List.map_nil]
    rw [List.nodup_append]
    refine ⟨hnd, List.nodup_singleton x, ?_⟩
    intro a ha hax
    rw [List.mem_singleton] at hax
    subst hax
    rw [List.mem_map] at ha
    obtain ⟨p, hp, hpa⟩ := ha
    rw [List.any_eq_true] at hmem
    exact hmem ⟨p, hp, by simp [hpa]⟩

/-- One `Counter` update raises the filtered count sum by one exactly
when the consumed element satisfies the filter. -/
lemma filter_sum_counterUpdate (P : String → Bool) (acc : List (String × Nat))
    (x : String) (hnd : (acc.map Prod.fst).Nodup) :
    (((counterUpdate acc x).filter (fun p => P p.1)).map Prod.snd).sum =
      ((acc.filter (fun p => P p.1)).map Prod.snd).sum +
        (if P x then 1 else 0) := by
  rw [counterUpdate]
  by_cases hmem : acc.any (fun p => p.1 = x) = true
  · rw [if_pos hmem]
    exact filter_sum_bump P x acc hnd hmem
  · rw [if_neg hmem]
    rw [List.filter_append, List.map_append, List.sum_append]
    by_cases hP : P x <;> simp [List.filter_cons, hP]

/-- Accumulator invariant of `Counter` consumption: the filtered count
sum after folding equals the one before plus the number of matching
consumed elements. -/
lemma counter_foldl_aux (P : String → Bool) (xs : List String) :
    ∀ acc, (acc.map Prod.fst).Nodup →
    (((xs.foldl counterUpdate acc).filter (fun p => P p.1)).map Prod.snd).sum =
      ((acc.filter (fun p => P p.1)).map Prod.snd).sum + xs.countP P := by
  induction xs with
  | nil => simp
  | cons y rest ih =>
      intro acc hnd
      rw [List.foldl_cons]
      rw [ih _ (counterUpdate_nodup acc y hnd)]
      rw [filter_sum_counterUpdate P acc y hnd]
      rw [List.countP_cons]
      by_cases hP : P y <;> simp [hP] <;> omega

/-- Grouping coherence of `Counter`: summing the counts of the entries
whose key satisfies a predicate equals counting the matching elements of
the original list directly. -/
lemma counter_filter_sum (P : String → Bool) (xs : List String) :
    (((counter xs).filter (fun p => P p.1)).map Prod.snd).sum = xs.countP P := by
  have h := counter_foldl_aux P xs [] (by simp)
  simpa [counter] using h

/-- C8: `analyze_statistics` on the two tagged Physics questions yields
the claimed topic, bloom and cognitive-complexity tables; in general the
lower-order (resp. higher-order) count over any list of bloom levels
equals the number of levels whose lowercase form is remember/understand
(resp. apply/analyze/evaluate/create). -/
theorem analyze_statistics_spec :
    analyze_statistics statsInput =
      .dict
        [("total_questions", .int 2),
         ("topic_distribution", .dict [("Physics", .int 2)]),
         ("bloom_distribution", .dict [("Remember", .int 1), ("Apply", .int 1)]),
         ("top_topics", .list [.list [.str "Physics", .int 2]]),
         ("cognitive_complexity",
          .dict [("lower_order", .int 1), ("higher_order", .int 1)])] ∧
    (∀ xs : List String, sumMatchingLevels lowerOrderLevels (counter xs) =
      xs.countP (fun l => strLower l ∈ lowerOrderLevels)) ∧
    (∀ xs : List String, sumMatchingLevels higherOrderLevels (counter xs) =
      xs.countP (fun l => strLower l ∈ higherOrderLevels)) :=
  ⟨rfl,
   fun xs => counter_filter_sum (fun l => decide (strLower l ∈ lowerOrderLevels)) xs,
   fun xs => counter_filter_sum (fun l => decide (strLower l ∈ higherOrderLevels)) xs⟩

end Profiler
